import Mathlib

/-!
Shallow embedding of `src/shader.rs` from `learning-opengl-rust`: shader
program construction (preprocessing, compilation, linking), the active-shader
session with its texture-slot counter, and the `BindUniform` trait
implementations.  GPU driver calls are modelled as explicit traces so that
claims about which calls are issued, in which order and with which payloads,
become statements about Lean lists.
-/

namespace ShaderRs

/-- Rust `f32` values.  The code never computes with the floats it binds: they
are only passed through to the driver, so an `f32` is modelled opaquely by its
32-bit pattern, which keeps equality decidable. -/
structure F32 where
  bits : Nat
deriving DecidableEq, Repr

/-- `glm::Vec3` — an opaque aggregate of three `f32` components, accessed as
`.x`, `.y`, `.z` in the code. -/
structure Vec3 where
  x : F32
  y : F32
  z : F32
deriving DecidableEq, Repr

/-- `glm::Mat3` — nine `f32` entries stored column-major (`mij` is row `i`,
column `j`; storage order is column 1, then column 2, then column 3, exactly
what `as_slice` exposes). -/
structure Mat3 where
  m11 : F32
  m21 : F32
  m31 : F32
  m12 : F32
  m22 : F32
  m32 : F32
  m13 : F32
  m23 : F32
  m33 : F32
deriving DecidableEq, Repr

/-- `Mat3::as_slice`: the contiguous column-major float layout. -/
def Mat3.as_slice (m : Mat3) : List F32 :=
  [m.m11, m.m21, m.m31, m.m12, m.m22, m.m32, m.m13, m.m23, m.m33]

/-- `glm::Mat4` — sixteen `f32` entries stored column-major. -/
structure Mat4 where
  m11 : F32
  m21 : F32
  m31 : F32
  m41 : F32
  m12 : F32
  m22 : F32
  m32 : F32
  m42 : F32
  m13 : F32
  m23 : F32
  m33 : F32
  m43 : F32
  m14 : F32
  m24 : F32
  m34 : F32
  m44 : F32
deriving DecidableEq, Repr

/-- `Mat4::as_slice`: the contiguous column-major float layout. -/
def Mat4.as_slice (m : Mat4) : List F32 :=
  [m.m11, m.m21, m.m31, m.m41, m.m12, m.m22, m.m32, m.m42,
   m.m13, m.m23, m.m33, m.m43, m.m14, m.m24, m.m34, m.m44]

/-- The graphics context as seen by uniform binding: for the program owned by
the `Shader`, `get_uniform_location` maps a uniform name to an optional opaque
location (`none` when the name is not an active uniform).  This models
`gl.get_uniform_location(self.id, name)`, i.e. `Shader::location`. -/
structure GlCtx where
  get_uniform_location : String → Option Nat

/-- One `glow` uniform-upload call as issued by the `BindUniform` impls.  Each
constructor mirrors the corresponding `glow` method, carrying the (possibly
absent) location handed to it and the payload. -/
inductive GlCall where
  | uniform_1_f32 (loc : Option Nat) (x : F32)
  | uniform_1_i32 (loc : Option Nat) (x : Int)
  | uniform_1_u32 (loc : Option Nat) (x : Nat)
  | uniform_3_f32 (loc : Option Nat) (x y z : F32)
  | uniform_4_f32 (loc : Option Nat) (x y z w : F32)
  | uniform_matrix_3_f32_slice (loc : Option Nat) (transpose : Bool) (values : List F32)
  | uniform_matrix_4_f32_slice (loc : Option Nat) (transpose : Bool) (values : List F32)
deriving DecidableEq, Repr

/-- The location an upload call was addressed to. -/
def GlCall.loc : GlCall → Option Nat
  | .uniform_1_f32 l _ => l
  | .uniform_1_i32 l _ => l
  | .uniform_1_u32 l _ => l
  | .uniform_3_f32 l _ _ _ => l
  | .uniform_4_f32 l _ _ _ _ => l
  | .uniform_matrix_3_f32_slice l _ _ => l
  | .uniform_matrix_4_f32_slice l _ _ => l

/-- A `glow` upload call reaches the driver only when its location is present:
`glow` silently drops calls whose `location` argument is `None`.  The driver
uploads of a call list are the calls with a present location. -/
def driverUploads (calls : List GlCall) : List GlCall :=
  calls.filter (fun c => c.loc.isSome)

/-- `ActiveShader`: the session state.  The Rust struct also borrows the
`Shader` (used only to delegate `location`, folded into `GlCtx` here); its
mutable state is the `num_textures : u32` counter. -/
structure ActiveShader where
  num_textures : Nat
deriving DecidableEq, Repr

/-- `ActiveShader::new`: counter starts at zero. -/
def ActiveShader.new : ActiveShader := ⟨0⟩

/-- `ActiveShader::new_texture_slot`: returns the current counter, then
increments it.  `num_textures` is a `u32`, so the increment wraps modulo
`2^32`. -/
def ActiveShader.new_texture_slot (s : ActiveShader) : Nat × ActiveShader :=
  (s.num_textures, ⟨(s.num_textures + 1) % 2 ^ 32⟩)

/-- `ActiveShader::reset_textures`: sets the counter back to zero. -/
def ActiveShader.reset_textures (_s : ActiveShader) : ActiveShader := ⟨0⟩

/-- The closed family of host types with a `BindUniform` impl in the source:
`f32`, `i32`, `u32`, `Vec3`, `[f32; 4]`, `Mat3`, `Mat4`, `Vec<T>` and `&T`. -/
inductive UniformValue where
  | f32 (x : F32)
  | i32 (x : Int)
  | u32 (x : Nat)
  | vec3 (v : Vec3)
  | arr4 (x0 x1 x2 x3 : F32)
  | mat3 (m : Mat3)
  | mat4 (m : Mat4)
  | vec (elems : List UniformValue)
  | ref (v : UniformValue)
deriving Repr

/-- Rust `as i32` on a `usize`: truncate to 32 bits and reinterpret as
two's-complement signed. -/
def toI32 (n : Nat) : Int :=
  if n % 2 ^ 32 < 2 ^ 31 then (n % 2 ^ 32 : Nat) else (n % 2 ^ 32 : Nat) - 2 ^ 32

/-- The `i32` impl of `BindUniform`, shared by the direct `i32` case and the
length upload of the `Vec<T>` case: one `uniform_1_i32` call at the looked-up
location. -/
def bindI32 (gl : GlCtx) (name : String) (x : Int) (s : ActiveShader) :
    ActiveShader × List GlCall :=
  (s, [.uniform_1_i32 (gl.get_uniform_location name) x])

mutual

/-- `ActiveShader::bind_uniform` / the `BindUniform` impls of `shader.rs`:
dispatch on the value's type, look up the location for `name`, and issue the
upload call(s).  Returns the session state after the bind and the trace of
`glow` calls issued, in order.  The `Vec<T>` impl first binds
`self.len() as i32` under `"{name}_len"`, then each element under
`"{name}[{i}]"`; the `&T` impl forwards to `T`'s impl. -/
def bind_uniform (gl : GlCtx) (name : String) (v : UniformValue) (s : ActiveShader) :
    ActiveShader × List GlCall :=
  match v with
  | .f32 x => (s, [.uniform_1_f32 (gl.get_uniform_location name) x])
  | .i32 x => bindI32 gl name x s
  | .u32 x => (s, [.uniform_1_u32 (gl.get_uniform_location name) x])
  | .vec3 v => (s, [.uniform_3_f32 (gl.get_uniform_location name) v.x v.y v.z])
  | .arr4 x0 x1 x2 x3 => (s, [.uniform_4_f32 (gl.get_uniform_location name) x0 x1 x2 x3])
  | .mat3 m => (s, [.uniform_matrix_3_f32_slice (gl.get_uniform_location name) false m.as_slice])
  | .mat4 m => (s, [.uniform_matrix_4_f32_slice (gl.get_uniform_location name) false m.as_slice])
  | .vec elems =>
    let r1 := bindI32 gl (name ++ "_len") (toI32 elems.length) s
    let r2 := bind_vec_elems gl name 0 elems r1.1
    (r2.1, r1.2 ++ r2.2)
  | .ref v => bind_uniform gl name v s

/-- The `for (i, value) in self.iter().enumerate()` loop of the `Vec<T>` impl:
bind each element under `"{name}[{i}]"`, threading the session state. -/
def bind_vec_elems (gl : GlCtx) (name : String) (i : Nat) (elems : List UniformValue)
    (s : ActiveShader) : ActiveShader × List GlCall :=
  match elems with
  | [] => (s, [])
  | e :: rest =>
    let r1 := bind_uniform gl (name ++ "[" ++ toString i ++ "]") e s
    let r2 := bind_vec_elems gl name (i + 1) rest r1.1
    (r2.1, r1.2 ++ r2.2)

end

/-- N successive `new_texture_slot` calls: the list of returned slots and the
final session state. -/
def newTextureSlots : Nat → ActiveShader → List Nat × ActiveShader
  | 0, s => ([], s)
  | n + 1, s =>
    let r1 := s.new_texture_slot
    let r2 := newTextureSlots n r1.2
    (r1.1 :: r2.1, r2.2)

/-! Shader construction: preprocessing, per-stage compilation, linking
(`Shader::new`, `Shader::build_shader`, `Shader::load`). -/

/-- `glow::VERTEX_SHADER`. -/
def VERTEX_SHADER : Nat := 35633

/-- `glow::FRAGMENT_SHADER`. -/
def FRAGMENT_SHADER : Nat := 35632

/-- The graphics context as seen by `Shader::new` / `build_shader`: the
driver-reported compile status and info log per stage object (the two stage
objects are identified here by their stage kind, since exactly one of each is
created), and the program link status and program info log. -/
structure BuildCtx where
  get_shader_compile_status : Nat → Bool
  get_shader_info_log : Nat → String
  get_program_link_status : Bool
  get_program_info_log : String

/-- One GPU-side operation issued during `Shader::new`.  Shader objects are
identified by their stage kind (`VERTEX_SHADER` / `FRAGMENT_SHADER`). -/
inductive GlOp where
  | create_shader (shader_type : Nat)
  | shader_source (shader_type : Nat) (source : String)
  | compile_shader (shader_type : Nat)
  | create_program
  | attach_shader (shader_type : Nat)
  | link_program
  | delete_shader (shader_type : Nat)
deriving DecidableEq, Repr

/-- The source text carried by a `shader_source` operation, if any: extracts
the per-stage final source strings from a GPU-operation trace. -/
def GlOp.sourceText : GlOp → Option String
  | .shader_source _ src => some src
  | _ => none

/-- The platform header chosen by `cfg!(target_arch = "wasm32")` in
`Shader::new`; the target architecture is a parameter of the model. -/
def platformHeader (wasm32 : Bool) : String :=
  if wasm32 then "#version 300 es\nprecision highp float;"
  else "#version 330 core"

/-- The `defs` string of `Shader::new`: the five `TYPE_DEF` constants joined
with newlines, in the source's fixed order camera, material, point light,
directional light, spot light.  The constants themselves live in the
`camera`, `material` and `light` modules (outside this file's source), so
they are parameters. -/
def typeDefs (camera_def material_def point_light_def dir_light_def spot_light_def : String) :
    String :=
  String.intercalate "\n" [camera_def, material_def, point_light_def, dir_light_def, spot_light_def]

/-- The `preprocess` closure of `Shader::new`:
`format!("{header}\n{defs}\n{source}")`. -/
def preprocess (header defs source : String) : String :=
  header ++ "\n" ++ defs ++ "\n" ++ source

/-- `Shader::build_shader`: create a stage object, upload the source, invoke
the compiler, and check the compile-status flag; on failure, bail with the
info log interpolated into the error message.  Returns the result together
with the trace of GPU operations performed. -/
def build_shader (gl : BuildCtx) (shader_type : Nat) (source : String) :
    Except String Nat × List GlOp :=
  let ops := [GlOp.create_shader shader_type,
              GlOp.shader_source shader_type source,
              GlOp.compile_shader shader_type]
  if gl.get_shader_compile_status shader_type then
    (.ok shader_type, ops)
  else
    (.error ("Shader failed to compile with error: " ++ gl.get_shader_info_log shader_type), ops)

/-- `Shader::new`: preprocess both sources, compile the vertex stage then the
fragment stage (each `?` short-circuits), create and link the program, bail
with the program log on link failure, and delete both stage objects after a
successful link.  Returns the result and the full GPU-operation trace. -/
def Shader.new (gl : BuildCtx) (wasm32 : Bool)
    (camera_def material_def point_light_def dir_light_def spot_light_def : String)
    (vertex_source fragment_source : String) : Except String Unit × List GlOp :=
  let header := platformHeader wasm32
  let defs := typeDefs camera_def material_def point_light_def dir_light_def spot_light_def
  let vsrc := preprocess header defs vertex_source
  let fsrc := preprocess header defs fragment_source
  match build_shader gl VERTEX_SHADER vsrc with
  | (.error e, ops1) => (.error e, ops1)
  | (.ok vertex_shader, ops1) =>
    match build_shader gl FRAGMENT_SHADER fsrc with
    | (.error e, ops2) => (.error e, ops1 ++ ops2)
    | (.ok fragment_shader, ops2) =>
      let ops3 := [GlOp.create_program, GlOp.attach_shader vertex_shader,
                   GlOp.attach_shader fragment_shader, GlOp.link_program]
      if gl.get_program_link_status then
        (.ok (), ops1 ++ ops2 ++ ops3
          ++ [GlOp.delete_shader vertex_shader, GlOp.delete_shader fragment_shader])
      else
        (.error ("Shader program failed to link with error: " ++ gl.get_program_info_log),
         ops1 ++ ops2 ++ ops3)

/-- `Shader::load`: `try_join!` the two file reads (modelled by their
results; the vertex read's error wins when both fail, matching poll order),
then delegate to `Shader::new`.  On a failed read, no GPU operation is
performed. -/
def Shader.load (gl : BuildCtx) (wasm32 : Bool)
    (camera_def material_def point_light_def dir_light_def spot_light_def : String)
    (vertex_read fragment_read : Except String String) : Except String Unit × List GlOp :=
  match vertex_read, fragment_read with
  | .error e, _ => (.error e, [])
  | .ok _, .error e => (.error e, [])
  | .ok vertex_source, .ok fragment_source =>
    Shader.new gl wasm32 camera_def material_def point_light_def dir_light_def spot_light_def
      vertex_source fragment_source

/-! Helper lemmas about uniform binding and the texture-slot counter. -/


mutual

/-- No `BindUniform` impl touches the session state: binding returns the
input `ActiveShader` unchanged. -/
theorem bind_uniform_state (gl : GlCtx) (name : String) (v : UniformValue) (s : ActiveShader) :
    (bind_uniform gl name v s).1 = s := by
  cases v with
  | vec elems =>
    simp only [bind_uniform, bindI32]
    exact bind_vec_elems_state gl name 0 elems s
  | ref v => simpa only [bind_uniform] using bind_uniform_state gl name v s
  | f32 x => simp [bind_uniform]
  | i32 x => simp [bind_uniform, bindI32]
  | u32 x => simp [bind_uniform]
  | vec3 v => simp [bind_uniform]
  | arr4 x0 x1 x2 x3 => simp [bind_uniform]
  | mat3 m => simp [bind_uniform]
  | mat4 m => simp [bind_uniform]

/-- The element loop of the `Vec<T>` impl leaves the session state
unchanged. -/
theorem bind_vec_elems_state (gl : GlCtx) (name : String) (i : Nat)
    (elems : List UniformValue) (s : ActiveShader) :
    (bind_vec_elems gl name i elems s).1 = s := by
  cases elems with
  | nil => simp [bind_vec_elems]
  | cons e rest =>
    simp only [bind_vec_elems]
    rw [bind_uniform_state gl (name ++ "[" ++ toString i ++ "]") e s]
    exact bind_vec_elems_state gl name (i + 1) rest s

end

/-- The element loop's call trace does not depend on the incoming session
state, and is the concatenation, in index order, of the traces of the
element binds. -/
theorem bind_vec_elems_calls (gl : GlCtx) (name : String) (i : Nat)
    (elems : List UniformValue) (s : ActiveShader) :
    (bind_vec_elems gl name i elems s).2 =
      (List.enumFrom i elems).flatMap
        (fun p => (bind_uniform gl (name ++ "[" ++ toString p.1 ++ "]") p.2 s).2) := by
  induction elems generalizing i with
  | nil => simp [bind_vec_elems]
  | cons e rest ih =>
    simp only [bind_vec_elems, List.enumFrom, List.flatMap_cons]
    rw [bind_uniform_state gl (name ++ "[" ++ toString i ++ "]") e s]
    rw [ih (i + 1)]

/-- The first call of a sequence bind is the length upload under
`"{name}_len"`, carrying `len() as i32`. -/
theorem bind_vec_len_call (gl : GlCtx) (name : String) (elems : List UniformValue)
    (s : ActiveShader) :
    ((bind_uniform gl name (.vec elems) s).2).head? =
      some (.uniform_1_i32 (gl.get_uniform_location (name ++ "_len")) (toI32 elems.length)) := by
  simp only [bind_uniform, bindI32]
  rfl

/-- `driverUploads` distributes over trace concatenation. -/
theorem driverUploads_append (l₁ l₂ : List GlCall) :
    driverUploads (l₁ ++ l₂) = driverUploads l₁ ++ driverUploads l₂ := by
  simp [driverUploads]

mutual

/-- When the location lookup is absent for every name, a bind issues no
driver upload: every `glow` call it makes carries a `none` location and is
dropped before the driver. -/
theorem bind_uniform_no_uploads (gl : GlCtx)
    (h : ∀ n, gl.get_uniform_location n = none)
    (name : String) (v : UniformValue) (s : ActiveShader) :
    driverUploads (bind_uniform gl name v s).2 = [] := by
  cases v with
  | vec elems =>
    simp only [bind_uniform, bindI32]
    rw [driverUploads_append, bind_vec_elems_no_uploads gl h name 0 elems s]
    simp [driverUploads, GlCall.loc, h]
  | ref v => simpa only [bind_uniform] using bind_uniform_no_uploads gl h name v s
  | f32 x => simp [bind_uniform, driverUploads, GlCall.loc, h]
  | i32 x => simp [bind_uniform, bindI32, driverUploads, GlCall.loc, h]
  | u32 x => simp [bind_uniform, driverUploads, GlCall.loc, h]
  | vec3 v => simp [bind_uniform, driverUploads, GlCall.loc, h]
  | arr4 x0 x1 x2 x3 => simp [bind_uniform, driverUploads, GlCall.loc, h]
  | mat3 m => simp [bind_uniform, driverUploads, GlCall.loc, h]
  | mat4 m => simp [bind_uniform, driverUploads, GlCall.loc, h]

/-- Element-loop companion of `bind_uniform_no_uploads`. -/
theorem bind_vec_elems_no_uploads (gl : GlCtx)
    (h : ∀ n, gl.get_uniform_location n = none)
    (name : String) (i : Nat) (elems : List UniformValue) (s : ActiveShader) :
    driverUploads (bind_vec_elems gl name i elems s).2 = [] := by
  cases elems with
  | nil => simp [bind_vec_elems, driverUploads]
  | cons e rest =>
    simp only [bind_vec_elems]
    rw [driverUploads_append,
      bind_uniform_no_uploads gl h (name ++ "[" ++ toString i ++ "]") e s,
      bind_vec_elems_no_uploads gl h name (i + 1) rest
        (bind_uniform gl (name ++ "[" ++ toString i ++ "]") e s).1]
    rfl

end

/-- Starting from a counter value `c < 2^32`, the `i`-th of `n` successive
slot calls returns `(c + i) % 2^32`. -/
theorem newTextureSlots_eq (n : Nat) : ∀ (c : Nat), c < 2 ^ 32 →
    (newTextureSlots n ⟨c⟩).1 = (List.range n).map (fun i => (c + i) % 2 ^ 32) := by
  induction n with
  | zero => intro c _; simp [newTextureSlots]
  | succ n ih =>
    intro c hc
    simp only [newTextureSlots, ActiveShader.new_texture_slot, List.range_succ_eq_map,
      List.map_cons, List.map_map, List.cons.injEq]
    refine ⟨by omega, ?_⟩
    rw [ih ((c + 1) % 2 ^ 32) (Nat.mod_lt _ (by norm_num))]
    refine List.map_congr_left (fun i _ => ?_)
    simp only [Function.comp_apply]
    rw [Nat.mod_add_mod]
    congr 1
    omega

/-- A string with a nonempty prefix is nonempty. -/
theorem append_ne_empty_left (pre log : String) (hp : pre ≠ "") : pre ++ log ≠ "" := by
  intro h
  apply hp
  have hlen := congrArg String.length h
  rw [String.length_append] at hlen
  have hz : pre.length = 0 := by
    have : String.length "" = 0 := rfl
    omega
  cases pre with
  | mk data =>
    simp [String.length] at hz
    simp [hz]

/-! Claim theorems. -/

/-- C7: for every 3x3 or 4x4 matrix value, `bind_uniform` issues exactly one
matrix upload call that passes the matrix's 9 (respectively 16) floats
unchanged, in column-major order, with the transpose flag false. -/
theorem claim_C7_matrix_bind (gl : GlCtx) (name : String) (s : ActiveShader)
    (m3 : Mat3) (m4 : Mat4) :
    bind_uniform gl name (.mat3 m3) s =
      (s, [.uniform_matrix_3_f32_slice (gl.get_uniform_location name) false
            [m3.m11, m3.m21, m3.m31, m3.m12, m3.m22, m3.m32, m3.m13, m3.m23, m3.m33]])
    ∧ bind_uniform gl name (.mat4 m4) s =
      (s, [.uniform_matrix_4_f32_slice (gl.get_uniform_location name) false
            [m4.m11, m4.m21, m4.m31, m4.m41, m4.m12, m4.m22, m4.m32, m4.m42,
             m4.m13, m4.m23, m4.m33, m4.m43, m4.m14, m4.m24, m4.m34, m4.m44]]) :=
  ⟨rfl, rfl⟩

/-- C9: binding a reference to a value produces exactly the same driver-call
sequence and the same final session state as binding the value itself. -/
theorem claim_C9_ref_transparent (gl : GlCtx) (name : String) (v : UniformValue)
    (s : ActiveShader) :
    bind_uniform gl name (.ref v) s = bind_uniform gl name v s := by
  simp only [bind_uniform]

/-- C10: every uniform binder leaves the session's texture-slot counter
`num_textures` unchanged (the value family covers the float, signed int,
unsigned int, 3-vector, 4-element array, 3x3 and 4x4 matrix, sequence and
reference binders, sequences and references nested arbitrarily). -/
theorem claim_C10_bind_preserves_counter (gl : GlCtx) (name : String) (v : UniformValue)
    (s : ActiveShader) :
    ((bind_uniform gl name v s).1).num_textures = s.num_textures := by
  rw [bind_uniform_state]

/-- C5: for every supported host type (every `UniformValue`), binding under a
context whose uniform-location lookup is absent performs zero driver upload
calls and leaves the session unchanged; the model is a total function, so no
error is raised and no panic occurs. -/
theorem claim_C5_absent_location_noop (gl : GlCtx) (name : String) (v : UniformValue)
    (s : ActiveShader) (h : ∀ n, gl.get_uniform_location n = none) :
    driverUploads (bind_uniform gl name v s).2 = [] ∧ (bind_uniform gl name v s).1 = s :=
  ⟨bind_uniform_no_uploads gl h name v s, bind_uniform_state gl name v s⟩

/-- Witness for C5 at a concrete nested value and an all-absent context. -/
theorem claim_C5_witness :
    driverUploads (bind_uniform ⟨fun _ => none⟩ "u"
        (.vec [.i32 5, .ref (.f32 ⟨1⟩), .mat3 ⟨⟨0⟩,⟨0⟩,⟨0⟩,⟨0⟩,⟨0⟩,⟨0⟩,⟨0⟩,⟨0⟩,⟨0⟩⟩]) ⟨0⟩).2 = []
    ∧ (bind_uniform ⟨fun _ => none⟩ "u"
        (.vec [.i32 5, .ref (.f32 ⟨1⟩), .mat3 ⟨⟨0⟩,⟨0⟩,⟨0⟩,⟨0⟩,⟨0⟩,⟨0⟩,⟨0⟩,⟨0⟩,⟨0⟩⟩]) ⟨0⟩).1 = ⟨0⟩ :=
  claim_C5_absent_location_noop ⟨fun _ => none⟩ "u"
    (.vec [.i32 5, .ref (.f32 ⟨1⟩), .mat3 ⟨⟨0⟩,⟨0⟩,⟨0⟩,⟨0⟩,⟨0⟩,⟨0⟩,⟨0⟩,⟨0⟩,⟨0⟩⟩]) ⟨0⟩
    (fun _ => rfl)

/-- C2: for every pair of raw sources, each stage's final source is exactly
the newline-separated concatenation of the platform header (WebGL
version/precision directive on wasm32, desktop core-profile directive
otherwise), the newline-joined five type-definition strings in the order
camera, material, point light, directional light, spot light, and the
unmodified original source; and `Shader::new` uploads exactly these
assembled strings as the stage sources. -/
theorem claim_C2_preprocess (wasm32 : Bool) (c m p d sp vsrc fsrc : String) (gl : BuildCtx) :
    preprocess (platformHeader wasm32) (typeDefs c m p d sp) vsrc =
      (if wasm32 then "#version 300 es\nprecision highp float;" else "#version 330 core")
        ++ "\n" ++ (c ++ "\n" ++ m ++ "\n" ++ p ++ "\n" ++ d ++ "\n" ++ sp) ++ "\n" ++ vsrc
    ∧ (Shader.new gl wasm32 c m p d sp vsrc fsrc).2.filterMap GlOp.sourceText =
        if gl.get_shader_compile_status VERTEX_SHADER then
          [preprocess (platformHeader wasm32) (typeDefs c m p d sp) vsrc,
           preprocess (platformHeader wasm32) (typeDefs c m p d sp) fsrc]
        else
          [preprocess (platformHeader wasm32) (typeDefs c m p d sp) vsrc] := by
  constructor
  · cases wasm32 <;>
      simp [preprocess, platformHeader, typeDefs, String.intercalate, String.intercalate.go,
        String.append_assoc]
  · rcases hv : gl.get_shader_compile_status VERTEX_SHADER with _ | _ <;>
      rcases hf : gl.get_shader_compile_status FRAGMENT_SHADER with _ | _ <;>
      rcases hl : gl.get_program_link_status with _ | _ <;>
      simp [Shader.new, build_shader, hv, hf, hl, GlOp.sourceText]

/-- C1 as stated is falsified by integer truncation: the length uniform
carries `self.len() as i32`, so a sequence of `2^31` elements uploads the
value `-2^31`, not the element count `2^31`. -/
theorem claim_C1_counterexample :
    ((bind_uniform ⟨fun _ => some 0⟩ "xs"
        (.vec (List.replicate (2 ^ 31) (.i32 0))) ⟨0⟩).2).head? =
      some (.uniform_1_i32 (some 0) (-(2 ^ 31)))
    ∧ ((List.replicate (2 ^ 31) (UniformValue.i32 0)).length : Int) = 2 ^ 31
    ∧ (-(2 ^ 31) : Int) ≠ 2 ^ 31 := by
  refine ⟨?_, ?_, by norm_num⟩
  · rw [bind_vec_len_call, List.length_replicate]
    decide
  · rw [List.length_replicate]
    norm_num

/-- C1 amended: binding a sequence of length N issues first one
`uniform_1_i32` upload under `"{name}_len"` carrying the element count cast
to a 32-bit signed integer (equal to the count whenever N < 2^31), followed
exactly by the element binds under `"{name}[0]"` … `"{name}[N-1]"`, in index
order. -/
theorem claim_C1_sequence_bind (gl : GlCtx) (name : String) (elems : List UniformValue)
    (s : ActiveShader) :
    (bind_uniform gl name (.vec elems) s).2 =
      GlCall.uniform_1_i32 (gl.get_uniform_location (name ++ "_len")) (toI32 elems.length)
        :: (List.enumFrom 0 elems).flatMap
            (fun q => (bind_uniform gl (name ++ "[" ++ toString q.1 ++ "]") q.2 s).2)
    ∧ (elems.length < 2 ^ 31 → toI32 elems.length = (elems.length : Int)) := by
  constructor
  · simp only [bind_uniform, bindI32]
    rw [bind_vec_elems_calls]
    rfl
  · intro h
    have h32 : elems.length % 2 ^ 32 = elems.length :=
      Nat.mod_eq_of_lt (lt_trans h (by norm_num))
    rw [toI32, h32, if_pos h]

/-- Witness for C1 at a concrete two-element sequence. -/
theorem claim_C1_witness :
    (bind_uniform ⟨fun _ => some 1⟩ "u" (.vec [.u32 7, .i32 3]) ⟨0⟩).2 =
      GlCall.uniform_1_i32 (some 1) (toI32 2)
        :: (List.enumFrom 0 [UniformValue.u32 7, UniformValue.i32 3]).flatMap
            (fun q => (bind_uniform ⟨fun _ => some 1⟩ ("u" ++ "[" ++ toString q.1 ++ "]")
              q.2 ⟨0⟩).2)
    ∧ toI32 (2 : Nat) = (2 : Int) := by
  refine ⟨(claim_C1_sequence_bind ⟨fun _ => some 1⟩ "u" [.u32 7, .i32 3] ⟨0⟩).1, ?_⟩
  exact (claim_C1_sequence_bind ⟨fun _ => some 1⟩ "u" [.u32 7, .i32 3] ⟨0⟩).2 (by norm_num)

/-- C3 as stated is falsified: the compile error does not carry the stage
kind.  Two contexts in which different stages fail (vertex in the first,
fragment in the second) with the same diagnostic log produce identical error
values, so the error cannot identify the offending stage. -/
theorem claim_C3_counterexample :
    (Shader.new ⟨fun _ => false, fun _ => "E", true, ""⟩ false
        "c" "m" "p" "d" "s" "v" "f").1 =
      .error "Shader failed to compile with error: E"
    ∧ (Shader.new ⟨fun t => t == VERTEX_SHADER, fun _ => "E", true, ""⟩ false
        "c" "m" "p" "d" "s" "v" "f").1 =
      .error "Shader failed to compile with error: E" := by
  constructor <;> rfl

/-- C3 amended: if compilation of a stage fails, `new` fails with an error
whose message embeds the driver-reported diagnostic log verbatim (after a
fixed prefix, the same for both stages — the stage kind is not part of the
error), the message is non-empty, and the failure short-circuits: on a
vertex-stage failure the fragment stage is never compiled, and in either
case no program is linked. -/
theorem claim_C3_compile_error (gl : BuildCtx) (wasm32 : Bool)
    (c m p d sp vsrc fsrc : String) :
    (gl.get_shader_compile_status VERTEX_SHADER = false →
      (Shader.new gl wasm32 c m p d sp vsrc fsrc).1 =
          .error ("Shader failed to compile with error: "
            ++ gl.get_shader_info_log VERTEX_SHADER)
        ∧ GlOp.compile_shader FRAGMENT_SHADER ∉ (Shader.new gl wasm32 c m p d sp vsrc fsrc).2
        ∧ GlOp.link_program ∉ (Shader.new gl wasm32 c m p d sp vsrc fsrc).2
        ∧ ("Shader failed to compile with error: "
            ++ gl.get_shader_info_log VERTEX_SHADER) ≠ "")
    ∧ (gl.get_shader_compile_status VERTEX_SHADER = true →
        gl.get_shader_compile_status FRAGMENT_SHADER = false →
      (Shader.new gl wasm32 c m p d sp vsrc fsrc).1 =
          .error ("Shader failed to compile with error: "
            ++ gl.get_shader_info_log FRAGMENT_SHADER)
        ∧ GlOp.link_program ∉ (Shader.new gl wasm32 c m p d sp vsrc fsrc).2
        ∧ ("Shader failed to compile with error: "
            ++ gl.get_shader_info_log FRAGMENT_SHADER) ≠ "") := by
  constructor
  · intro hv
    refine ⟨?_, ?_, ?_, append_ne_empty_left _ _ (by decide)⟩ <;>
      (simp [Shader.new, build_shader, hv]
       all_goals decide)
  · intro hv hf
    refine ⟨?_, ?_, append_ne_empty_left _ _ (by decide)⟩ <;>
      simp [Shader.new, build_shader, hv, hf]

/-- Witness for C3 at concrete failing contexts. -/
theorem claim_C3_witness :
    ((Shader.new ⟨fun _ => false, fun _ => "E", true, "L"⟩ true
        "c" "m" "p" "d" "s" "v" "f").1 =
      .error ("Shader failed to compile with error: " ++ "E")
    ∧ GlOp.compile_shader FRAGMENT_SHADER
        ∉ (Shader.new ⟨fun _ => false, fun _ => "E", true, "L"⟩ true
            "c" "m" "p" "d" "s" "v" "f").2
    ∧ GlOp.link_program
        ∉ (Shader.new ⟨fun _ => false, fun _ => "E", true, "L"⟩ true
            "c" "m" "p" "d" "s" "v" "f").2
    ∧ ("Shader failed to compile with error: " ++ "E") ≠ "")
    ∧ ((Shader.new ⟨fun t => t == VERTEX_SHADER, fun _ => "E2", true, "L"⟩ true
        "c" "m" "p" "d" "s" "v" "f").1 =
      .error ("Shader failed to compile with error: " ++ "E2")
    ∧ GlOp.link_program
        ∉ (Shader.new ⟨fun t => t == VERTEX_SHADER, fun _ => "E2", true, "L"⟩ true
            "c" "m" "p" "d" "s" "v" "f").2
    ∧ ("Shader failed to compile with error: " ++ "E2") ≠ "") :=
  ⟨(claim_C3_compile_error ⟨fun _ => false, fun _ => "E", true, "L"⟩ true
      "c" "m" "p" "d" "s" "v" "f").1 rfl,
   (claim_C3_compile_error ⟨fun t => t == VERTEX_SHADER, fun _ => "E2", true, "L"⟩ true
      "c" "m" "p" "d" "s" "v" "f").2 rfl rfl⟩

/-- C4 as stated is falsified: on the link-failure path the two stage
objects are not deleted.  In a concrete context where both stages compile
but the link fails, the trace contains the link step but no delete of either
stage object. -/
theorem claim_C4_counterexample :
    GlOp.link_program
      ∈ (Shader.new ⟨fun _ => true, fun _ => "", false, "L"⟩ false
          "c" "m" "p" "d" "s" "v" "f").2
    ∧ GlOp.delete_shader VERTEX_SHADER
        ∉ (Shader.new ⟨fun _ => true, fun _ => "", false, "L"⟩ false
            "c" "m" "p" "d" "s" "v" "f").2
    ∧ GlOp.delete_shader FRAGMENT_SHADER
        ∉ (Shader.new ⟨fun _ => true, fun _ => "", false, "L"⟩ false
            "c" "m" "p" "d" "s" "v" "f").2 := by
  refine ⟨?_, ?_, ?_⟩ <;> decide

/-- C4 amended: once both stages are attached and the link step has run, the
two stage objects are deleted on the successful-link path only — the full
trace on success ends with the two deletes — while on the link-failure path
neither stage object is deleted. -/
theorem claim_C4_stage_cleanup (gl : BuildCtx) (wasm32 : Bool)
    (c m p d sp vsrc fsrc : String)
    (hv : gl.get_shader_compile_status VERTEX_SHADER = true)
    (hf : gl.get_shader_compile_status FRAGMENT_SHADER = true) :
    (gl.get_program_link_status = true →
      (Shader.new gl wasm32 c m p d sp vsrc fsrc).2 =
        [GlOp.create_shader VERTEX_SHADER,
         GlOp.shader_source VERTEX_SHADER
           (preprocess (platformHeader wasm32) (typeDefs c m p d sp) vsrc),
         GlOp.compile_shader VERTEX_SHADER,
         GlOp.create_shader FRAGMENT_SHADER,
         GlOp.shader_source FRAGMENT_SHADER
           (preprocess (platformHeader wasm32) (typeDefs c m p d sp) fsrc),
         GlOp.compile_shader FRAGMENT_SHADER,
         GlOp.create_program,
         GlOp.attach_shader VERTEX_SHADER,
         GlOp.attach_shader FRAGMENT_SHADER,
         GlOp.link_program,
         GlOp.delete_shader VERTEX_SHADER,
         GlOp.delete_shader FRAGMENT_SHADER])
    ∧ (gl.get_program_link_status = false →
        GlOp.delete_shader VERTEX_SHADER ∉ (Shader.new gl wasm32 c m p d sp vsrc fsrc).2
        ∧ GlOp.delete_shader FRAGMENT_SHADER ∉ (Shader.new gl wasm32 c m p d sp vsrc fsrc).2) := by
  constructor
  · intro hl
    simp [Shader.new, build_shader, hv, hf, hl]
  · intro hl
    constructor <;> simp [Shader.new, build_shader, hv, hf, hl]

/-- Witness for C4 on both a successful-link and a failed-link concrete
context. -/
theorem claim_C4_witness :
    ((true = true →
      (Shader.new ⟨fun _ => true, fun _ => "", true, "L"⟩ false
          "c" "m" "p" "d" "s" "v" "f").2 =
        [GlOp.create_shader VERTEX_SHADER,
         GlOp.shader_source VERTEX_SHADER
           (preprocess (platformHeader false) (typeDefs "c" "m" "p" "d" "s") "v"),
         GlOp.compile_shader VERTEX_SHADER,
         GlOp.create_shader FRAGMENT_SHADER,
         GlOp.shader_source FRAGMENT_SHADER
           (preprocess (platformHeader false) (typeDefs "c" "m" "p" "d" "s") "f"),
         GlOp.compile_shader FRAGMENT_SHADER,
         GlOp.create_program,
         GlOp.attach_shader VERTEX_SHADER,
         GlOp.attach_shader FRAGMENT_SHADER,
         GlOp.link_program,
         GlOp.delete_shader VERTEX_SHADER,
         GlOp.delete_shader FRAGMENT_SHADER])
    ∧ (true = false →
        GlOp.delete_shader VERTEX_SHADER
          ∉ (Shader.new ⟨fun _ => true, fun _ => "", true, "L"⟩ false
              "c" "m" "p" "d" "s" "v" "f").2
        ∧ GlOp.delete_shader FRAGMENT_SHADER
          ∉ (Shader.new ⟨fun _ => true, fun _ => "", true, "L"⟩ false
              "c" "m" "p" "d" "s" "v" "f").2))
    ∧ ((false = true →
      (Shader.new ⟨fun _ => true, fun _ => "", false, "L"⟩ false
          "c" "m" "p" "d" "s" "v" "f").2 =
        [GlOp.create_shader VERTEX_SHADER,
         GlOp.shader_source VERTEX_SHADER
           (preprocess (platformHeader false) (typeDefs "c" "m" "p" "d" "s") "v"),
         GlOp.compile_shader VERTEX_SHADER,
         GlOp.create_shader FRAGMENT_SHADER,
         GlOp.shader_source FRAGMENT_SHADER
           (preprocess (platformHeader false) (typeDefs "c" "m" "p" "d" "s") "f"),
         GlOp.compile_shader FRAGMENT_SHADER,
         GlOp.create_program,
         GlOp.attach_shader VERTEX_SHADER,
         GlOp.attach_shader FRAGMENT_SHADER,
         GlOp.link_program,
         GlOp.delete_shader VERTEX_SHADER,
         GlOp.delete_shader FRAGMENT_SHADER])
    ∧ (false = false →
        GlOp.delete_shader VERTEX_SHADER
          ∉ (Shader.new ⟨fun _ => true, fun _ => "", false, "L"⟩ false
              "c" "m" "p" "d" "s" "v" "f").2
        ∧ GlOp.delete_shader FRAGMENT_SHADER
          ∉ (Shader.new ⟨fun _ => true, fun _ => "", false, "L"⟩ false
              "c" "m" "p" "d" "s" "v" "f").2)) :=
  ⟨claim_C4_stage_cleanup ⟨fun _ => true, fun _ => "", true, "L"⟩ false
      "c" "m" "p" "d" "s" "v" "f" rfl rfl,
   claim_C4_stage_cleanup ⟨fun _ => true, fun _ => "", false, "L"⟩ false
      "c" "m" "p" "d" "s" "v" "f" rfl rfl⟩

/-- C8: if either source read fails, `load` returns the underlying I/O error
and performs no GPU operation (the vertex read's error when the vertex read
fails, the fragment read's otherwise). -/
theorem claim_C8_load_error (gl : BuildCtx) (wasm32 : Bool) (c m p d sp : String)
    (vread fread : Except String String) (e : String) :
    (vread = .error e →
      Shader.load gl wasm32 c m p d sp vread fread = (.error e, []))
    ∧ (∀ v, vread = .ok v → fread = .error e →
      Shader.load gl wasm32 c m p d sp vread fread = (.error e, [])) := by
  constructor
  · intro hv
    subst hv
    rfl
  · intro v hv hf
    subst hv
    subst hf
    rfl

/-- Witness for C8: a failed vertex read and a failed fragment read at a
concrete context. -/
theorem claim_C8_witness :
    Shader.load ⟨fun _ => true, fun _ => "", true, ""⟩ false "c" "m" "p" "d" "s"
        (.error "io") (.ok "f") = (.error "io", [])
    ∧ Shader.load ⟨fun _ => true, fun _ => "", true, ""⟩ false "c" "m" "p" "d" "s"
        (.ok "v") (.error "io") = (.error "io", []) :=
  ⟨(claim_C8_load_error ⟨fun _ => true, fun _ => "", true, ""⟩ false "c" "m" "p" "d" "s"
      (.error "io") (.ok "f") "io").1 rfl,
   (claim_C8_load_error ⟨fun _ => true, fun _ => "", true, ""⟩ false "c" "m" "p" "d" "s"
      (.ok "v") (.error "io") "io").2 "v" rfl rfl⟩

/-- C6 as stated is falsified by 32-bit wraparound of `num_textures`: after
`2^32` calls the counter has wrapped to 0, so `2^32 + 1` successive calls on
a fresh session do not return `0, 1, …, 2^32` (the last call returns 0
again). -/
theorem claim_C6_counterexample :
    (newTextureSlots (2 ^ 32 + 1) ActiveShader.new).1 ≠ List.range (2 ^ 32 + 1) := by
  intro h
  have heq : (newTextureSlots (2 ^ 32 + 1) ActiveShader.new).1 =
      (List.range (2 ^ 32 + 1)).map (fun i => (0 + i) % 2 ^ 32) :=
    newTextureSlots_eq (2 ^ 32 + 1) 0 (by norm_num)
  rw [heq] at h
  have h1 := congrArg (fun l => l[(2 : Nat) ^ 32]?) h
  simp only [List.getElem?_map, List.getElem?_range] at h1
  norm_num at h1

/-- C6 amended: a freshly activated session's counter is zero; each
`new_texture_slot` call returns the current counter and then increments it
modulo `2^32` (`num_textures` is 32-bit); for every `N ≤ 2^32`, `N`
successive calls on a fresh or just-reset session return exactly
`0, 1, …, N-1`; and `reset_textures` followed by one call returns 0. -/
theorem claim_C6_texture_slots (N : Nat) (hN : N ≤ 2 ^ 32) (s : ActiveShader) :
    ActiveShader.new.num_textures = 0
    ∧ (s.new_texture_slot).1 = s.num_textures
    ∧ ((s.new_texture_slot).2).num_textures = (s.num_textures + 1) % 2 ^ 32
    ∧ (newTextureSlots N ActiveShader.new).1 = List.range N
    ∧ (newTextureSlots N (s.reset_textures)).1 = List.range N
    ∧ ((s.reset_textures).new_texture_slot).1 = 0 := by
  have hmain : (newTextureSlots N (⟨0⟩ : ActiveShader)).1 = List.range N := by
    rw [newTextureSlots_eq N 0 (by norm_num)]
    calc (List.range N).map (fun i => (0 + i) % 2 ^ 32)
        = (List.range N).map id :=
          List.map_congr_left (fun i hi => by
            have hlt : i < N := List.mem_range.mp hi
            show (0 + i) % 2 ^ 32 = id i
            simp only [id_eq]
            omega)
      _ = List.range N := List.map_id _
  exact ⟨rfl, rfl, rfl, hmain, hmain, rfl⟩

/-- Witness for C6 at `N = 3` and a session with counter 5. -/
theorem claim_C6_witness :
    ActiveShader.new.num_textures = 0
    ∧ ((⟨5⟩ : ActiveShader).new_texture_slot).1 = (⟨5⟩ : ActiveShader).num_textures
    ∧ (((⟨5⟩ : ActiveShader).new_texture_slot).2).num_textures =
        ((⟨5⟩ : ActiveShader).num_textures + 1) % 2 ^ 32
    ∧ (newTextureSlots 3 ActiveShader.new).1 = List.range 3
    ∧ (newTextureSlots 3 ((⟨5⟩ : ActiveShader).reset_textures)).1 = List.range 3
    ∧ (((⟨5⟩ : ActiveShader).reset_textures).new_texture_slot).1 = 0 :=
  claim_C6_texture_slots 3 (by norm_num) ⟨5⟩

end ShaderRs
